import Mathlib

/- Verification of EzMudae.py: a shallow embedding of the module's data model and
   operations, followed by theorems about the claimed properties.

   Conventions of the embedding:
   * Discord users/members are identified by natural numbers; `message.guild` is
     modelled by a member list `List (String × Nat)` carried on each message, so
     `guild.get_member_named` is a lookup in that list.
   * Python exceptions are modelled by `Except PyErr`; the kinds that can arise
     in this module are listed in `PyErr`.
   * `time.time()` is passed explicitly as an integer parameter `now`.
   * The three `re` patterns of the source are embedded as ASTs (`rollRe`,
     `infoRe`, `footerRe`) over a small backtracking matcher (`matchRe`) that
     implements exactly the constructs those patterns use, with Python's
     semantics: greedy/lazy repetition over single-character classes, groups,
     greedy optionals, `$` matching at the end or before a final newline
     (patterns are compiled with DOTALL, so `.` matches every character), and
     `re.search` trying successive start positions (the roll/info patterns are
     anchored with `^` and no MULTILINE flag, so they only match at position 0).
-/

namespace EzMudae

/- Python exception kinds arising in EzMudae.py. -/
inductive PyErr
  | typeError
  | valueError
  | attributeError
  | indexError
  | zeroDivisionError
deriving DecidableEq

/- ------------------------------------------------------------------ -/
/- Regex engine: exactly the constructs used by the three patterns.   -/
/- ------------------------------------------------------------------ -/

/- Character classes appearing in the patterns: `.` under DOTALL, `\d`, `[^(]`. -/
inductive CharCls
  | any
  | digit
  | notLParen
deriving DecidableEq

def clsTest : CharCls → Char → Bool
  | .any, _ => true
  | .digit, c => c.isDigit
  | .notLParen, c => !(c == '(')

/- Regex abstract syntax. Repetition operators take a single character class,
   which is all the source patterns need. `opt` is the greedy `(?:...)?`,
   `eos` is `$` (end of string, or just before a trailing newline). -/
inductive Re
  | eps
  | lit : Char → Re
  | cls : CharCls → Re
  | starG : CharCls → Re
  | starL : CharCls → Re
  | plusG : CharCls → Re
  | plusL : CharCls → Re
  | seq : Re → Re → Re
  | grp : Nat → Re → Re
  | opt : Re → Re
  | eos : Re

/- Captured groups: group number paired with the captured characters.
   A group absent from the list did not participate in the match (Python `None`). -/
abbrev Caps := List (Nat × List Char)

def firstSome (f : Nat → Option Caps) : List Nat → Option Caps
  | [] => none
  | n :: ns =>
    match f n with
    | some c => some c
    | none => firstSome f ns

/- Length of the maximal prefix of `s` whose characters satisfy the class. -/
def countCls (cc : CharCls) : List Char → Nat
  | [] => 0
  | c :: rest => if clsTest cc c then countCls cc rest + 1 else 0

/- Backtracking matcher in continuation-passing style. Greedy repetition tries
   the longest prefix first, lazy repetition the shortest, mirroring Python `re`. -/
def matchRe : Re → List Char → Caps → (List Char → Caps → Option Caps) → Option Caps
  | .eps, s, caps, k => k s caps
  | .lit ch, s, caps, k =>
    match s with
    | [] => none
    | c :: rest => if c = ch then k rest caps else none
  | .cls cc, s, caps, k =>
    match s with
    | [] => none
    | c :: rest => if clsTest cc c then k rest caps else none
  | .starG cc, s, caps, k =>
    firstSome (fun i => k (s.drop i) caps) ((List.range (countCls cc s + 1)).reverse)
  | .starL cc, s, caps, k =>
    firstSome (fun i => k (s.drop i) caps) (List.range (countCls cc s + 1))
  | .plusG cc, s, caps, k =>
    firstSome (fun i => k (s.drop i) caps) (((List.range (countCls cc s)).map (fun i => i + 1)).reverse)
  | .plusL cc, s, caps, k =>
    firstSome (fun i => k (s.drop i) caps) ((List.range (countCls cc s)).map (fun i => i + 1))
  | .seq r1 r2, s, caps, k =>
    matchRe r1 s caps (fun s1 c1 => matchRe r2 s1 c1 k)
  | .grp n r, s, caps, k =>
    matchRe r s caps (fun s1 c1 => k s1 ((n, s.take (s.length - s1.length)) :: c1))
  | .opt r, s, caps, k =>
    match matchRe r s caps k with
    | some c => some c
    | none => k s caps
  | .eos, s, caps, k =>
    if s = [] ∨ s = ['\n'] then k s caps else none

def seqList : List Re → Re
  | [] => .eps
  | r :: rs => .seq r (seqList rs)

def lits (s : String) : Re := seqList (s.toList.map Re.lit)

def accept : List Char → Caps → Option Caps := fun _ caps => some caps

/- Match the pattern at the start of the string (the `^`-anchored patterns). -/
def reMatchHead (r : Re) (s : List Char) : Option Caps := matchRe r s [] accept

/- `re.search` for an unanchored pattern: try every start position, leftmost first. -/
def searchPositions (r : Re) : List Char → Option Caps
  | [] => reMatchHead r []
  | c :: t =>
    match reMatchHead r (c :: t) with
    | some caps => some caps
    | none => searchPositions r t

/- The roll pattern (EzMudae.py lines 175-178, VERBOSE comments stripped):
   `^(.*?)\n\*\*(\d+?)\*\*<.*>$` with DOTALL. -/
def rollRe : Re := seqList [
  .grp 1 (.starL .any),
  .lit '\n',
  .lit '*', .lit '*',
  .grp 2 (.plusL .digit),
  .lit '*', .lit '*', .lit '<',
  .starG .any,
  .lit '>',
  .eos ]

/- The info pattern (EzMudae.py lines 185-192):
   `^(.*)\ <:(.+?):\d+?>.*?\*\*(\d*)[^(]*(?:\((\d*)\))?.*Claims:\ \#(\d*).*?Likes:\ \#(\d*)` -/
def infoRe : Re := seqList [
  .grp 1 (.starG .any),
  .lit ' ',
  .lit '<', .lit ':',
  .grp 2 (.plusL .any),
  .lit ':',
  .plusL .digit,
  .lit '>',
  .starL .any,
  .lit '*', .lit '*',
  .grp 3 (.starG .digit),
  .starG .notLParen,
  .opt (seqList [.lit '(', .grp 4 (.starG .digit), .lit ')']),
  .starG .any,
  lits "Claims: #",
  .grp 5 (.starG .digit),
  .starL .any,
  lits "Likes: #",
  .grp 6 (.starG .digit) ]

/- The footer pattern (EzMudae.py lines 216-223):
   `(?:Belongs\ to\ (.+?))?(?:\ ~~\ )?(?:(\d+?)\ /\ (\d+)(?:\ \[(\d+?)\])?)?$` -/
def footerRe : Re := seqList [
  .opt (seqList [lits "Belongs to ", .grp 1 (.plusL .any)]),
  .opt (lits " ~~ "),
  .opt (seqList [
    .grp 2 (.plusL .digit),
    lits " / ",
    .grp 3 (.plusG .digit),
    .opt (seqList [lits " [", .grp 4 (.plusL .digit), .lit ']'])]),
  .eos ]

def rollSearch (d : String) : Option Caps := reMatchHead rollRe d.toList

def infoSearch (d : String) : Option Caps := reMatchHead infoRe d.toList

def footerSearch (t : String) : Option Caps := searchPositions footerRe t.toList

/- `match.group(n)`: `none` is Python's `None` for a non-participating group. -/
def getGroup (caps : Caps) (n : Nat) : Option (List Char) :=
  (caps.find? (fun p => p.1 == n)).map (fun p => p.2)

/- ------------------------------------------------------------------ -/
/- Python helpers.                                                    -/
/- ------------------------------------------------------------------ -/

def digitsToNat (l : List Char) : Nat :=
  l.foldl (fun a c => a * 10 + (c.toNat - 48)) 0

/- `int(s)` on a captured string: every capture fed to `int` in the source is a
   (possibly empty) run of digits; `int("")` raises ValueError. -/
def pyIntL (l : List Char) : Except PyErr Int :=
  if l = [] then .error .valueError
  else if l.all (fun c => c.isDigit) then .ok (digitsToNat l : Int)
  else .error .valueError

/- `int(x)` where `x` is `match.group(n)`: `int(None)` raises TypeError. -/
def pyIntO (o : Option (List Char)) : Except PyErr Int :=
  match o with
  | none => .error .typeError
  | some l => pyIntL l

/- Truthiness of `match.group(n)`: `None` and `""` are falsy. -/
def strTruthyL (o : Option (List Char)) : Bool :=
  match o with
  | none => false
  | some l => !l.isEmpty

def strOfList (l : List Char) : String := ⟨l⟩

/- `s.replace("\n", " ")` for the single-character pattern used by the source. -/
def replaceNl (l : List Char) : List Char :=
  l.map (fun c => if c = '\n' then ' ' else c)

/- `needle in hay` for Python strings (substring test). -/
def hasSub (needle : List Char) : List Char → Bool
  | [] => needle.isEmpty
  | c :: t => needle.isPrefixOf (c :: t) || hasSub needle t

/- `"wished" in message.content.lower()`. -/
def hasWished (content : String) : Bool :=
  hasSub "wished".toList (content.toList.map Char.toLower)

/- `guild.get_member_named(name)`. -/
def getMemberNamed (guild : List (String × Nat)) (name : String) : Option Nat :=
  (guild.find? (fun p => p.1 == name)).map (fun p => p.2)

/- Python `a % b` on ints (the source only uses positive moduli). -/
def pyMod (a b : Int) : Except PyErr Int :=
  if b = 0 then .error .zeroDivisionError else .ok (a % b)

/- `l[i] = v`: assigning past the end raises IndexError. -/
def listSetItem (l : List Int) (i : Nat) (v : Int) : Except PyErr (List Int) :=
  if i < l.length then .ok (l.set i v) else .error .indexError

/- `l[i]` for a non-negative index. -/
def listGetItem (l : List Int) (i : Nat) : Except PyErr Int :=
  match l.get? i with
  | some v => .ok v
  | none => .error .indexError

/- ------------------------------------------------------------------ -/
/- Data model.                                                        -/
/- ------------------------------------------------------------------ -/

structure Embed where
  description : String
  authorName : String
  imageUrl : Option String
  footerText : Option String
deriving DecidableEq

structure Message where
  id : Nat
  author : Nat
  content : String
  mentions : List Nat
  guildMembers : List (String × Nat)
  embeds : List Embed
deriving DecidableEq

/- Mudae.Waifu.Type -/
inductive WType
  | roll
  | info
deriving DecidableEq

/- The fields the two body patterns fill in during `Waifu.__init__`. -/
structure Core where
  series : Option String
  kakera : Option Int
  key : Option Int
  claims : Option Int
  likes : Option Int
  isGirl : Option Bool
  wtype : Option WType
deriving DecidableEq

def coreEmpty : Core := ⟨none, none, none, none, none, none, none⟩

/- What the footer parse produces. -/
structure FooterInfo where
  isClaimed : Bool
  owner : Option Nat
  imageIndex : Option Int
  imageCount : Option Int
  imageExtra : Option Int
deriving DecidableEq

structure Waifu where
  mudae : Nat
  user : Nat
  messageId : Nat
  name : String
  series : String
  image : String
  kakera : Option Int
  key : Option Int
  claims : Option Int
  likes : Option Int
  isGirl : Option Bool
  wtype : Option WType
  isClaimed : Bool
  owner : Option Nat
  imageIndex : Option Int
  imageCount : Option Int
  imageExtra : Option Int
  creator : Option Nat
  suitors : List Nat
deriving DecidableEq

/- A Mudae instance. `timingAttrs = none` models the constructor branch where
   `timing` was falsy: then `_roll_mod`, `_claim_mod`, `_roll_rem`, `_claim_rem`
   and `_timing` are never assigned, so reading any of them raises
   AttributeError. When set, it carries those five attributes in order. -/
structure Mudae where
  user : Nat
  mudae : Nat
  timingAttrs : Option (Int × Int × Int × Int × List Int)
deriving DecidableEq

/- ------------------------------------------------------------------ -/
/- Operations.                                                        -/
/- ------------------------------------------------------------------ -/

/- `Mudae.__init__(user, mudae, timing)` (lines 42-66). -/
def mudaeInit (user mudae : Nat) (timing : Option (List Int)) : Except PyErr Mudae :=
  match timing with
  | none => .ok ⟨user, mudae, none⟩
  | some l =>
    if l = [] then .ok ⟨user, mudae, none⟩
    else
      match listGetItem l 0 with
      | .error e => .error e
      | .ok a =>
        match listGetItem l 1 with
        | .error e => .error e
        | .ok b =>
          match listGetItem l 2 with
          | .error e => .error e
          | .ok c =>
            match listGetItem l 3 with
            | .error e => .error e
            | .ok d => .ok ⟨user, mudae, some (a, b, c, d, l)⟩

/- The roll-shape attempt of `Waifu.__init__` (lines 174-182). -/
def rollStep (desc : String) (c : Core) : Except PyErr Core :=
  match rollSearch desc with
  | none => .ok c
  | some caps =>
    match getGroup caps 1, getGroup caps 2 with
    | some g1, some g2 =>
      match pyIntL g2 with
      | .error e => .error e
      | .ok k =>
        .ok { c with series := some (strOfList (replaceNl g1)),
                     kakera := some k,
                     wtype := some WType.roll }
    | _, _ => .error .attributeError

/- The info-shape attempt of `Waifu.__init__` (lines 184-206). Note that the
   source runs this attempt unconditionally, after the roll attempt. -/
def infoStep (desc : String) (c : Core) : Except PyErr Core :=
  match infoSearch desc with
  | none => .ok c
  | some caps =>
    match getGroup caps 1 with
    | none => .error .attributeError
    | some g1 =>
      match pyIntO (getGroup caps 3) with
      | .error e => .error e
      | .ok kak =>
        match (if strTruthyL (getGroup caps 4) then pyIntO (getGroup caps 4) else .ok 0) with
        | .error e => .error e
        | .ok key =>
          match pyIntO (getGroup caps 5) with
          | .error e => .error e
          | .ok cl =>
            match pyIntO (getGroup caps 6) with
            | .error e => .error e
            | .ok li =>
              .ok { series := some (strOfList (replaceNl g1)),
                    kakera := some kak,
                    key := some key,
                    claims := some cl,
                    likes := some li,
                    isGirl := some (decide (getGroup caps 2 = some "female".toList)),
                    wtype := some WType.info }

/- The footer parse of `Waifu.__init__` (lines 212-236). -/
def footerStep (ft : Option String) (guild : List (String × Nat)) : Except PyErr FooterInfo :=
  match ft with
  | none => .ok ⟨false, none, none, none, none⟩
  | some t =>
    if t = "" then .ok ⟨false, none, none, none, none⟩
    else
      match footerSearch t with
      | none => .error .attributeError
      | some caps =>
        let ownerPart : Bool × Option Nat :=
          match getGroup caps 1 with
          | some g1 =>
            if g1.isEmpty then (false, none)
            else (true, getMemberNamed guild (strOfList g1))
          | none => (false, none)
        match ((match getGroup caps 2 with
               | some g2 => if g2.isEmpty then .ok none else (pyIntL g2).map some
               | none => .ok none) : Except PyErr (Option Int)) with
        | .error e => .error e
        | .ok ii =>
          match ((match getGroup caps 3 with
                 | some g3 => if g3.isEmpty then .ok none else (pyIntL g3).map some
                 | none => .ok none) : Except PyErr (Option Int)) with
          | .error e => .error e
          | .ok ic =>
            match ((match getGroup caps 4 with
                   | some g4 => if g4.isEmpty then .ok 0 else pyIntL g4
                   | none => .ok 0) : Except PyErr Int) with
            | .error e => .error e
            | .ok ie => .ok ⟨ownerPart.1, ownerPart.2, ii, ic, some ie⟩

/- `Waifu.__init__(mudae, user, message)` (lines 144-236). -/
def waifuNew (mudae user : Nat) (m : Message) : Except PyErr Waifu :=
  if m.author ≠ mudae then .error .typeError
  else
    match m.embeds with
    | [embed] =>
      match embed.imageUrl with
      | none => .error .typeError
      | some img =>
        match rollStep embed.description coreEmpty with
        | .error e => .error e
        | .ok c1 =>
          match infoStep embed.description c1 with
          | .error e => .error e
          | .ok c2 =>
            match c2.series with
            | none => .error .typeError
            | some s =>
              if s = "" then .error .typeError
              else
                match footerStep embed.footerText m.guildMembers with
                | .error e => .error e
                | .ok f =>
                  .ok ⟨mudae, user, m.id, embed.authorName, s, img,
                       c2.kakera, c2.key, c2.claims, c2.likes, c2.isGirl, c2.wtype,
                       f.isClaimed, f.owner, f.imageIndex, f.imageCount, f.imageExtra,
                       none, []⟩
    | _ => .error .typeError

/- `Mudae.waifu_from(message)` (lines 317-340): only TypeError is caught. -/
def waifu_from (mst : Mudae) (m : Message) : Except PyErr (Option Waifu) :=
  match waifuNew mst.mudae mst.user m with
  | .ok w => .ok (some w)
  | .error .typeError => .ok none
  | .error e => .error e

/- The scan loop of `Waifu.fetch_extra` (lines 250-269), one iteration per
   message yielded by `channel.history(limit=10)`. -/
def fetchLoop : Nat → Waifu → List Message → Waifu
  | _, w, [] => w
  | state, w, msg :: rest =>
    if state = 0 then
      if msg.id = w.messageId then fetchLoop 1 w rest
      else fetchLoop 0 w rest
    else if state = 1 then
      if msg.author ≠ w.mudae then { w with creator := some msg.author }
      else if hasWished msg.content then fetchLoop 2 { w with suitors := msg.mentions } rest
      else fetchLoop 2 w rest
    else if state = 5 then w
    else
      if msg.author ≠ w.mudae then { w with creator := some msg.author }
      else fetchLoop (state + 1) w rest

/- `Waifu.fetch_extra()` with the channel history supplied explicitly;
   `limit=10` yields at most the first 10 messages. -/
def fetch_extra (w : Waifu) (hist : List Message) : Waifu :=
  fetchLoop 0 w (hist.take 10)

/- The predicate `check` inside `Waifu.await_claim` (lines 305-306). -/
def claimCheck (w : Waifu) (m : Message) : Bool :=
  (m.author == w.mudae)
    && hasSub w.name.toList m.content.toList
    && hasSub "are now married".toList (m.content.toList.map Char.toLower)

/- `Waifu.await_claim()` (lines 286-315). The single-shot 60-second
   `user.wait_for("message", timeout=60, check=check)` is modelled by the
   parameter `found`: `some msg` is the first incoming message satisfying
   `claimCheck` within the timeout, `none` means the wait timed out
   (`asyncio.TimeoutError`, caught and turned into `None`). Returns the
   result paired with the updated waifu. -/
def await_claim (w : Waifu) (found : Option Message) : Except PyErr (Option Nat) × Waifu :=
  if w.isClaimed then (.ok w.owner, w)
  else
    match found with
    | none => (.ok none, w)
    | some msg =>
      match (msg.content.splitOn "**").get? 1 with
      | none => (.error .indexError, w)
      | some part =>
        let owner := getMemberNamed msg.guildMembers part
        (.ok owner, { w with owner := owner, isClaimed := true })

/- The attributes defined on class `Mudae` (its two instance attributes that
   are always assigned, its methods, and the nested class). There is no
   attribute `waifu`. -/
def mudaeClassAttrs : List String :=
  ["mudae", "user", "waifu_from", "is_wish", "until_roll", "until_claim",
   "wait_roll", "wait_claim", "get_timing", "Waifu"]

/- Attribute lookup on a Mudae instance for the names `is_wish` touches. -/
def mudaeGetAttr (name : String) : Option String :=
  if mudaeClassAttrs.contains name then some name else none

/- `Mudae.is_wish(message, wishes, check_name, check_series)` (lines 342-373).
   Its first statement is `waifu = self.waifu(message)`, and `Mudae` has no
   attribute `waifu`, so the lookup raises AttributeError before anything else
   runs. (Were the attribute present, the next line `wishes.map(...)` would
   also raise AttributeError: Python lists have no attribute `map`.) -/
def is_wish (_mst : Mudae) (_m : Message) (_wishes : List String)
    (_checkName _checkSeries : Bool) : Except PyErr Bool :=
  match mudaeGetAttr "waifu" with
  | none => .error .attributeError
  | some _ => .error .attributeError

/- `Mudae.until_roll(in_seconds)` (lines 375-397). `if not self._timing` reads
   the `_timing` attribute, which was never assigned when the instance was
   built without a timing list; `int(left / 60)` truncates toward zero. -/
def until_roll (mst : Mudae) (now : Int) (inSeconds : Bool) : Except PyErr Int :=
  match mst.timingAttrs with
  | none => .error .attributeError
  | some (rollMod, _claimMod, rollRem, _claimRem, tl) =>
    if tl = [] then .error .typeError
    else
      match pyMod now rollMod with
      | .error e => .error e
      | .ok md =>
        let left := rollRem - md
        let left2 := if left < 0 then left + rollMod else left
        .ok (if inSeconds then left2 else left2.tdiv 60)

/- `Mudae.until_claim(in_seconds)` (lines 399-421). -/
def until_claim (mst : Mudae) (now : Int) (inSeconds : Bool) : Except PyErr Int :=
  match mst.timingAttrs with
  | none => .error .attributeError
  | some (_rollMod, claimMod, _rollRem, claimRem, tl) =>
    if tl = [] then .error .typeError
    else
      match pyMod now claimMod with
      | .error e => .error e
      | .ok md =>
        let left := claimRem - md
        let left2 := if left < 0 then left + claimMod else left
        .ok (if inSeconds then left2 else left2.tdiv 60)

/- `Mudae.get_timing(roll_mod, claim_mod, roll_rem, claim_rem, in_seconds)`
   (lines 439-472), with `int(time.time())` passed as `now`. The source does
   `times = []` and then assigns `times[0]`, `times[1]`, ...: assigning into an
   empty list raises IndexError. The right-hand side of each assignment is
   evaluated before the subscript store. -/
def get_timing (now rollMod claimMod rollRem claimRem : Int) (inSeconds : Bool) :
    Except PyErr (List Int) :=
  let mult : Int := if inSeconds then 1 else 60
  match listSetItem [] 0 (rollMod * mult) with
  | .error e => .error e
  | .ok t1 =>
    match listSetItem t1 1 (claimMod * mult) with
    | .error e => .error e
    | .ok t2 =>
      match pyMod (now + rollRem * mult) rollMod with
      | .error e => .error e
      | .ok v2 =>
        match listSetItem t2 2 v2 with
        | .error e => .error e
        | .ok t3 =>
          match pyMod (now + claimRem * mult) claimMod with
          | .error e => .error e
          | .ok v3 =>
            match listSetItem t3 3 v3 with
            | .error e => .error e
            | .ok t4 => .ok t4

/- ------------------------------------------------------------------ -/
/- Helper lemmas.                                                     -/
/- ------------------------------------------------------------------ -/

theorem pyIntL_ok_nonneg {l : List Char} {k : Int} (h : pyIntL l = .ok k) : 0 ≤ k := by
  unfold pyIntL at h
  split at h
  · exact Except.noConfusion h
  · split at h
    · injection h with h
      omega
    · exact Except.noConfusion h

theorem fetchLoop_isClaimed (state : Nat) (w : Waifu) (ms : List Message) :
    (fetchLoop state w ms).isClaimed = w.isClaimed := by
  induction ms generalizing state w with
  | nil => rfl
  | cons m t ih =>
    simp only [fetchLoop]
    repeat' split
    all_goals first
      | rfl
      | exact ih _ _

theorem infoStep_none_id {d : String} (c : Core) (hi : infoSearch d = none) :
    infoStep d c = .ok c := by
  unfold infoStep
  rw [hi]

theorem rollStep_ok_of_some {d : String} {caps : Caps} {c1 : Core}
    (hcaps : rollSearch d = some caps) (h : rollStep d coreEmpty = .ok c1) :
    ∃ s k, c1 = ⟨some s, some k, none, none, none, none, some WType.roll⟩ ∧ 0 ≤ k := by
  unfold rollStep at h
  rw [hcaps] at h
  split at h
  · rename_i heq
    exact Option.noConfusion heq
  · rename_i caps' heq
    injection heq with heq
    subst heq
    split at h
    all_goals try exact Except.noConfusion h
    split at h
    all_goals try exact Except.noConfusion h
    rename_i k hk
    injection h with h
    subst h
    exact ⟨_, _, rfl, pyIntL_ok_nonneg hk⟩

theorem infoStep_ok_isGirl {d : String} {caps : Caps} {c c2 : Core}
    (hcaps : infoSearch d = some caps) (h : infoStep d c = .ok c2) :
    c2.isGirl = some (decide (getGroup caps 2 = some "female".toList)) := by
  unfold infoStep at h
  rw [hcaps] at h
  split at h
  · rename_i heq
    exact Option.noConfusion heq
  · rename_i caps' heq
    injection heq with heq
    subst heq
    repeat' split at h
    all_goals try exact Except.noConfusion h
    all_goals (injection h with h; subst h; rfl)

theorem waifuNew_ok_decomp {md us : Nat} {m : Message} {w : Waifu}
    (h : waifuNew md us m = .ok w) :
    ∃ e c1 c2 s f,
      m.embeds = [e] ∧
      rollStep e.description coreEmpty = .ok c1 ∧
      infoStep e.description c1 = .ok c2 ∧
      c2.series = some s ∧ s ≠ "" ∧
      footerStep e.footerText m.guildMembers = .ok f ∧
      w.name = e.authorName ∧ w.series = s ∧
      w.kakera = c2.kakera ∧ w.key = c2.key ∧ w.claims = c2.claims ∧
      w.likes = c2.likes ∧ w.isGirl = c2.isGirl ∧ w.wtype = c2.wtype ∧
      w.isClaimed = f.isClaimed := by
  unfold waifuNew at h
  split at h
  all_goals try exact Except.noConfusion h
  split at h
  all_goals try exact Except.noConfusion h
  rename_i e heq_embeds
  split at h
  all_goals try exact Except.noConfusion h
  rename_i img heq_img
  split at h
  all_goals try exact Except.noConfusion h
  rename_i c1 heq_roll
  split at h
  all_goals try exact Except.noConfusion h
  rename_i c2 heq_info
  split at h
  all_goals try exact Except.noConfusion h
  rename_i s heq_series
  split at h
  all_goals try exact Except.noConfusion h
  rename_i hs_ne
  split at h
  all_goals try exact Except.noConfusion h
  rename_i f heq_footer
  injection h with h
  subst h
  exact ⟨e, c1, c2, s, f, heq_embeds, heq_roll, heq_info, heq_series, hs_ne, heq_footer,
         rfl, rfl, rfl, rfl, rfl, rfl, rfl, rfl, rfl⟩

/- ------------------------------------------------------------------ -/
/- Claim C1: the timing codec.                                        -/
/- ------------------------------------------------------------------ -/

/-- C1 counterexample: the claim states that `get_timing` returns a single
64-bit integer packing the four 16-bit lanes and that decoding it reproduces
them. At the concrete valid input (rollPeriod 60, claimPeriod 120,
rollRemaining 10, claimRemaining 20, seconds, now = 1000) `get_timing` does
not return any value at all: it raises IndexError (the source assigns into
index 0 of the empty list `times`), and nowhere does it mask or shift 16-bit
lanes. -/
theorem claim_C1_counterexample :
    get_timing 1000 60 120 10 20 true = .error .indexError := rfl

/-- C1 amended: `get_timing` performs no 64-bit bit-packing and never returns:
for every input it raises IndexError by assigning into index 0 of an empty
list. The encoding its docstring intends is a plain four-element list, and
`Mudae.__init__` decodes any four-element timing list positionally, storing
the four fields unchanged in order (roll period, claim period, roll phase,
claim phase). -/
theorem claim_C1_amended :
    (∀ (now rollMod claimMod rollRem claimRem : Int) (inSeconds : Bool),
      get_timing now rollMod claimMod rollRem claimRem inSeconds = .error .indexError) ∧
    (∀ (u b : Nat) (t0 t1 t2 t3 : Int),
      mudaeInit u b (some [t0, t1, t2, t3]) =
        .ok ⟨u, b, some (t0, t1, t2, t3, [t0, t1, t2, t3])⟩) := by
  constructor
  · intro now rollMod claimMod rollRem claimRem inSeconds
    rfl
  · intro u b t0 t1 t2 t3
    rfl

/- ------------------------------------------------------------------ -/
/- Claim C3: until_roll / until_claim without a timing list.          -/
/- ------------------------------------------------------------------ -/

/-- C3: a Mudae instance built without a timing list never assigns the
`_timing` attribute, so `until_roll` and `until_claim` fail at the guard
`if not self._timing` with AttributeError — not with the TypeError
("Missing timing list") that the source's own (dead) raise statement and the
spec's ValidationError intend. This theorem evaluates the code at the failing
input: construction with `timing=None` succeeds, and both queries then raise
AttributeError, which is distinct from TypeError. -/
theorem claim_C3_bug :
    ∀ (u b : Nat) (now : Int) (inSeconds : Bool),
      mudaeInit u b none = .ok ⟨u, b, none⟩ ∧
      until_roll ⟨u, b, none⟩ now inSeconds = .error .attributeError ∧
      until_claim ⟨u, b, none⟩ now inSeconds = .error .attributeError ∧
      (Except.error .attributeError : Except PyErr Int) ≠ .error .typeError := by
  intro u b now inSeconds
  refine ⟨rfl, rfl, rfl, ?_⟩
  intro hcontra
  injection hcontra with hcontra
  exact PyErr.noConfusion hcontra

/- ------------------------------------------------------------------ -/
/- Claim C7: until_roll / until_claim with a valid timing state.      -/
/- ------------------------------------------------------------------ -/

/-- C7: for every timing state whose phase fields lie in [0, period) and every
current time, `until_roll(in_seconds=True)` and `until_claim(in_seconds=True)`
return exactly `phase - (now mod period)`, plus a full period when that
difference is negative, and the result lies in [0, period). The state is the
one produced by `Mudae.__init__` on the four-element timing list. -/
theorem claim_C7 (u b : Nat) (rollMod claimMod rollRem claimRem now : Int)
    (h1 : 0 ≤ rollRem) (h2 : rollRem < rollMod)
    (h3 : 0 ≤ claimRem) (h4 : claimRem < claimMod) :
    mudaeInit u b (some [rollMod, claimMod, rollRem, claimRem]) =
      .ok ⟨u, b, some (rollMod, claimMod, rollRem, claimRem,
                       [rollMod, claimMod, rollRem, claimRem])⟩ ∧
    ∃ vr vc,
      until_roll ⟨u, b, some (rollMod, claimMod, rollRem, claimRem,
                              [rollMod, claimMod, rollRem, claimRem])⟩ now true = .ok vr ∧
      vr = (if rollRem - now % rollMod < 0 then rollRem - now % rollMod + rollMod
            else rollRem - now % rollMod) ∧
      0 ≤ vr ∧ vr < rollMod ∧
      until_claim ⟨u, b, some (rollMod, claimMod, rollRem, claimRem,
                               [rollMod, claimMod, rollRem, claimRem])⟩ now true = .ok vc ∧
      vc = (if claimRem - now % claimMod < 0 then claimRem - now % claimMod + claimMod
            else claimRem - now % claimMod) ∧
      0 ≤ vc ∧ vc < claimMod := by
  have hrm : rollMod ≠ 0 := by omega
  have hcm : claimMod ≠ 0 := by omega
  have hne : ¬([rollMod, claimMod, rollRem, claimRem] : List Int) = [] := by simp
  have hpmr : pyMod now rollMod = .ok (now % rollMod) := by
    unfold pyMod
    rw [if_neg hrm]
  have hpmc : pyMod now claimMod = .ok (now % claimMod) := by
    unfold pyMod
    rw [if_neg hcm]
  have hur : until_roll ⟨u, b, some (rollMod, claimMod, rollRem, claimRem,
                 [rollMod, claimMod, rollRem, claimRem])⟩ now true
      = .ok (if rollRem - now % rollMod < 0 then rollRem - now % rollMod + rollMod
             else rollRem - now % rollMod) := by
    simp only [until_roll, if_neg hne, hpmr, if_true]
  have huc : until_claim ⟨u, b, some (rollMod, claimMod, rollRem, claimRem,
                 [rollMod, claimMod, rollRem, claimRem])⟩ now true
      = .ok (if claimRem - now % claimMod < 0 then claimRem - now % claimMod + claimMod
             else claimRem - now % claimMod) := by
    simp only [until_claim, if_neg hne, hpmc, if_true]
  have hbr1 : 0 ≤ now % rollMod := Int.emod_nonneg now hrm
  have hbr2 : now % rollMod < rollMod := Int.emod_lt_of_pos now (by omega)
  have hbc1 : 0 ≤ now % claimMod := Int.emod_nonneg now hcm
  have hbc2 : now % claimMod < claimMod := Int.emod_lt_of_pos now (by omega)
  refine ⟨rfl, _, _, hur, rfl, ?_, ?_, huc, rfl, ?_, ?_⟩
  all_goals split <;> omega

/-- C7 witness: the timing theorem applied at the concrete state
(rollPeriod 3600s, claimPeriod 10800s, rollPhase 600, claimPhase 1200)
at time 5000. -/
theorem claim_C7_witness :
    mudaeInit 1 2 (some [3600, 10800, 600, 1200]) =
      .ok ⟨1, 2, some (3600, 10800, 600, 1200, [3600, 10800, 600, 1200])⟩ ∧
    ∃ vr vc,
      until_roll ⟨1, 2, some (3600, 10800, 600, 1200, [3600, 10800, 600, 1200])⟩
          5000 true = .ok vr ∧
      vr = (if (600 : Int) - 5000 % 3600 < 0 then 600 - 5000 % 3600 + 3600
            else 600 - 5000 % 3600) ∧
      0 ≤ vr ∧ vr < 3600 ∧
      until_claim ⟨1, 2, some (3600, 10800, 600, 1200, [3600, 10800, 600, 1200])⟩
          5000 true = .ok vc ∧
      vc = (if (1200 : Int) - 5000 % 10800 < 0 then 1200 - 5000 % 10800 + 10800
            else 1200 - 5000 % 10800) ∧
      0 ≤ vc ∧ vc < 10800 :=
  claim_C7 1 2 3600 10800 600 1200 5000 (by decide) (by decide) (by decide) (by decide)

/- ------------------------------------------------------------------ -/
/- Claim C8: await_claim.                                             -/
/- ------------------------------------------------------------------ -/

/-- C8: `await_claim` returns the stored owner immediately (with no state
change) when `is_claimed` is already true, and when the 60-second wait expires
with no message satisfying the claim predicate (`found = none`) it returns
`None` without raising, leaving the waifu — in particular `is_claimed = false`
— unchanged. -/
theorem claim_C8 :
    (∀ (w : Waifu) (found : Option Message),
      w.isClaimed = true → await_claim w found = (.ok w.owner, w)) ∧
    (∀ w : Waifu, w.isClaimed = false → await_claim w none = (.ok none, w)) := by
  constructor
  · intro w found h
    simp [await_claim, h]
  · intro w h
    simp [await_claim, h]

def waifuC8 : Waifu :=
  ⟨1, 2, 200, "W", "S", "img", none, none, none, none, none, some WType.roll,
   true, some 9, none, none, none, none, []⟩

/-- C8 witness: the already-claimed branch at a concrete waifu whose owner is
member 9. -/
theorem claim_C8_witness : await_claim waifuC8 none = (.ok waifuC8.owner, waifuC8) :=
  claim_C8.1 waifuC8 none rfl

/- ------------------------------------------------------------------ -/
/- Claim C10: is_wish.                                                -/
/- ------------------------------------------------------------------ -/

/-- C10: `is_wish` never returns a boolean: for every instance, message, wish
list and flag combination its first statement `self.waifu(message)` raises
AttributeError, because class `Mudae` defines no attribute `waifu` (and the
following line, `wishes.map(...)`, would raise AttributeError on a Python list
as well). -/
theorem claim_C10 :
    ∀ (mst : Mudae) (m : Message) (wishes : List String) (checkName checkSeries : Bool),
      is_wish mst m wishes checkName checkSeries = .error .attributeError := by
  intro mst m wishes checkName checkSeries
  rfl

/- ------------------------------------------------------------------ -/
/- Claim C2: record invariants.                                       -/
/- ------------------------------------------------------------------ -/

def msgC2 : Message :=
  ⟨11, 1, "", [], [], [⟨"S\n**7**<e>", "", some "img", none⟩]⟩

def waifuC2 : Waifu :=
  ⟨1, 2, 11, "", "S", "img", some 7, none, none, none, none, some WType.roll,
   false, none, none, none, none, none, []⟩

/-- C2 counterexample: the claim states that whenever Waifu construction
succeeds both `name` and `series` are non-empty. On a message whose embed has
an empty display-name field but a valid roll body, construction succeeds with
`name = ""`: the source copies `embed.author.name` verbatim and never checks
it (only `series` is checked). -/
theorem claim_C2_counterexample :
    waifuNew 1 2 msgC2 = .ok waifuC2 ∧ waifuC2.name = "" := ⟨rfl, rfl⟩

/-- C2 amended: whenever construction succeeds `series` is non-empty (the
constructor raises TypeError when the matched series is missing or empty), but
`name` is copied verbatim from the embed's display field without validation and
may be empty; and across the subsequent operations `is_claimed` never moves
from true back to false: `fetch_extra` leaves it untouched and `await_claim`
preserves a true value. -/
theorem claim_C2_amended :
    (∀ (md us : Nat) (m : Message) (w : Waifu),
      waifuNew md us m = .ok w → w.series ≠ "") ∧
    (∀ (w : Waifu) (hist : List Message),
      (fetch_extra w hist).isClaimed = w.isClaimed) ∧
    (∀ (w : Waifu) (found : Option Message),
      w.isClaimed = true → (await_claim w found).2.isClaimed = true) := by
  refine ⟨?_, ?_, ?_⟩
  · intro md us m w h
    obtain ⟨e, c1, c2, s, f, _, _, _, _, hs_ne, _, _, hser, _, _, _, _, _, _, _⟩ :=
      waifuNew_ok_decomp h
    rw [hser]
    exact hs_ne
  · intro w hist
    exact fetchLoop_isClaimed 0 w (hist.take 10)
  · intro w found h
    simp [await_claim, h]

/-- C2 witness: the series-nonemptiness part applied at the concrete message
`msgC2`. -/
theorem claim_C2_witness : waifuC2.series ≠ "" :=
  claim_C2_amended.1 1 2 msgC2 waifuC2 rfl

/- ------------------------------------------------------------------ -/
/- Claim C4: roll-shaped bodies.                                      -/
/- ------------------------------------------------------------------ -/

def msgC4 : Message :=
  ⟨12, 1, "", [], [], [⟨"S <:f:1>**2 Claims: #3 Likes: #4\n**5**<g>", "N", some "img", none⟩]⟩

def waifuC4 : Waifu :=
  ⟨1, 2, 12, "N", "S", "img", some 2, some 0, some 3, some 4, some false, some WType.info,
   false, none, none, none, none, none, []⟩

/-- C4 counterexample: the claim states that every body matching the roll shape
yields `kind = roll` with `claimRank`/`likeRank` absent, the info pattern being
attempted only if the roll shape did not match. On this concrete body the roll
pattern does match, yet the source attempts the info pattern unconditionally
afterwards and it also matches, overwriting the result: the constructed record
has `kind = info` with `claims` and `likes` present. -/
theorem claim_C4_counterexample :
    (rollSearch "S <:f:1>**2 Claims: #3 Likes: #4\n**5**<g>").isSome = true ∧
    waifuNew 1 2 msgC4 = .ok waifuC4 ∧
    waifuC4.wtype = some WType.info ∧ waifuC4.claims = some 3 ∧ waifuC4.likes = some 4 :=
  ⟨rfl, rfl, rfl, rfl, rfl⟩

/-- C4 amended: for a body that matches the roll shape and does NOT match the
info shape (the info pattern is attempted unconditionally and overrides the
roll result when both match), the constructed record has `kind = roll`,
`kakera` present and non-negative, and `gender`/`claimRank`/`likeRank`
absent. -/
theorem claim_C4_amended (md us : Nat) (m : Message) (e : Embed) (w : Waifu)
    (hme : m.embeds = [e])
    (hr : (rollSearch e.description).isSome = true)
    (hi : infoSearch e.description = none)
    (hw : waifuNew md us m = .ok w) :
    w.wtype = some WType.roll ∧ (∃ k, w.kakera = some k ∧ 0 ≤ k) ∧
    w.isGirl = none ∧ w.claims = none ∧ w.likes = none := by
  obtain ⟨caps, hcaps⟩ := Option.isSome_iff_exists.mp hr
  obtain ⟨e2, c1, c2, s, f, hme2, hroll, hinfo, _, _, _, _, _, hkak, _, hcl, hli, hgirl,
          hty, _⟩ := waifuNew_ok_decomp hw
  rw [hme] at hme2
  injection hme2 with he _
  subst he
  obtain ⟨s0, k, hc1, hk⟩ := rollStep_ok_of_some hcaps hroll
  subst hc1
  rw [infoStep_none_id _ hi] at hinfo
  injection hinfo with hinfo
  subst hinfo
  exact ⟨hty, ⟨k, hkak, hk⟩, hgirl, hcl, hli⟩

def msgC4w : Message :=
  ⟨13, 1, "", [], [], [⟨"S\n**12**<:k:1>", "N", some "img", none⟩]⟩

def waifuC4w : Waifu :=
  ⟨1, 2, 13, "N", "S", "img", some 12, none, none, none, none, some WType.roll,
   false, none, none, none, none, none, []⟩

/-- C4 witness: the amended theorem applied at a concrete pure-roll message. -/
theorem claim_C4_witness :
    waifuC4w.wtype = some WType.roll ∧ (∃ k, waifuC4w.kakera = some k ∧ 0 ≤ k) ∧
    waifuC4w.isGirl = none ∧ waifuC4w.claims = none ∧ waifuC4w.likes = none :=
  claim_C4_amended 1 2 msgC4w ⟨"S\n**12**<:k:1>", "N", some "img", none⟩ waifuC4w
    rfl rfl rfl rfl

/- ------------------------------------------------------------------ -/
/- Claim C5: rejection of bodies matching neither shape.              -/
/- ------------------------------------------------------------------ -/

/-- C5: for every message whose embed bodies match neither the roll nor the
info shape, extraction fails with the recoverable error (TypeError, the
module's ValidationError), which `waifu_from` catches and turns into `None`;
no other exception reaches the caller. -/
theorem claim_C5 (mst : Mudae) (m : Message)
    (h : ∀ e ∈ m.embeds, rollSearch e.description = none ∧ infoSearch e.description = none) :
    waifu_from mst m = .ok none := by
  have hW : waifuNew mst.mudae mst.user m = .error .typeError := by
    unfold waifuNew
    by_cases ha : m.author ≠ mst.mudae
    · rw [if_pos ha]
    · rw [if_neg ha]
      rcases hme : m.embeds with _ | ⟨e, _ | ⟨e2, tl2⟩⟩
      · simp only [hme]
      · obtain ⟨hr, hi⟩ := h e (by rw [hme]; exact List.mem_cons_self e [])
        have h1 : rollStep e.description coreEmpty = .ok coreEmpty := by
          unfold rollStep
          rw [hr]
        have h2 : infoStep e.description coreEmpty = .ok coreEmpty := infoStep_none_id _ hi
        rcases himg : e.imageUrl with _ | img
        · simp only [hme, himg]
        · simp only [hme, himg, h1, h2]
          rfl
      · simp only [hme]
  unfold waifu_from
  rw [hW]

def mudaeC5 : Mudae := ⟨2, 1, none⟩

def msgC5 : Message :=
  ⟨14, 1, "", [], [], [⟨"S <:female:1>**2 Claims: #3", "N", some "img", none⟩]⟩

/-- C5 witness: a body that partially matches several fields of the info shape
(series, gender marker, kakera, claim rank) but is missing the like-rank field
matches neither pattern, and `waifu_from` returns `None` on it. -/
theorem claim_C5_witness : waifu_from mudaeC5 msgC5 = .ok none :=
  claim_C5 mudaeC5 msgC5 (by decide)

/- ------------------------------------------------------------------ -/
/- Claim C6: the gender marker.                                       -/
/- ------------------------------------------------------------------ -/

def msgC6 : Message :=
  ⟨15, 1, "", [], [], [⟨"S <:robot:1>**2 Claims: #3 Likes: #4", "N", some "img", none⟩]⟩

def waifuC6 : Waifu :=
  ⟨1, 2, 15, "N", "S", "img", some 2, some 0, some 3, some 4, some false, some WType.info,
   false, none, none, none, none, none, []⟩

/-- C6 counterexample: the claim states the gender marker is matched against
exactly two known token forms and that any other marker leaves gender absent.
On an info body whose marker is `robot` — neither of the two forms — the
constructed record has `is_girl = false` (the male value), not absent: the
source only compares the capture with the single token `"female"` and defaults
everything else to `False`. -/
theorem claim_C6_counterexample :
    waifuNew 1 2 msgC6 = .ok waifuC6 ∧
    ((infoSearch "S <:robot:1>**2 Claims: #3 Likes: #4").bind (fun caps => getGroup caps 2))
      = some "robot".toList ∧
    "robot" ≠ "female" ∧ "robot" ≠ "male" ∧
    waifuC6.isGirl = some false ∧ waifuC6.isGirl ≠ none :=
  ⟨rfl, rfl, by decide, by decide, rfl, by decide⟩

/-- C6 amended: on every info-shaped body the gender capture is compared
against the single token form `"female"`: equal means `is_girl = true`, and any
other capture (including markers that are neither of the two defined forms)
yields `is_girl = false`; gender is never left absent once the info shape
matches. -/
theorem claim_C6_amended (md us : Nat) (m : Message) (e : Embed) (w : Waifu)
    (hme : m.embeds = [e])
    (hi : (infoSearch e.description).isSome = true)
    (hw : waifuNew md us m = .ok w) :
    w.isGirl = some (decide ((infoSearch e.description).bind (fun caps => getGroup caps 2)
        = some "female".toList)) := by
  obtain ⟨caps, hcaps⟩ := Option.isSome_iff_exists.mp hi
  obtain ⟨e2, c1, c2, s, f, hme2, hroll, hinfo, _, _, _, _, _, _, _, _, _, hgirl, _, _⟩ :=
    waifuNew_ok_decomp hw
  rw [hme] at hme2
  injection hme2 with he _
  subst he
  rw [hcaps]
  exact hgirl.trans (infoStep_ok_isGirl hcaps hinfo)

def msgC6w : Message :=
  ⟨16, 1, "", [], [], [⟨"S <:female:9>**250 (3).* Claims: #11 Likes: #22", "N", some "img", none⟩]⟩

def waifuC6w : Waifu :=
  ⟨1, 2, 16, "N", "S", "img", some 250, some 3, some 11, some 22, some true, some WType.info,
   false, none, none, none, none, none, []⟩

/-- C6 witness: the amended theorem applied at a concrete info message whose
marker is `female`. -/
theorem claim_C6_witness :
    waifuC6w.isGirl = some (decide ((infoSearch "S <:female:9>**250 (3).* Claims: #11 Likes: #22").bind
        (fun caps => getGroup caps 2) = some "female".toList)) :=
  claim_C6_amended 1 2 msgC6w ⟨"S <:female:9>**250 (3).* Claims: #11 Likes: #22", "N", some "img", none⟩
    waifuC6w rfl rfl rfl

/- ------------------------------------------------------------------ -/
/- Claim C9: the fetch_extra history scan.                            -/
/- ------------------------------------------------------------------ -/

def waifuC9 : Waifu :=
  ⟨1, 2, 100, "W", "S", "img", none, none, none, none, none, some WType.roll,
   false, none, none, none, none, none, []⟩

def msgAnchor : Message := ⟨100, 1, "", [], [], []⟩

def msgBot1 : Message := ⟨101, 1, "hi", [], [], []⟩

def msgWish : Message := ⟨102, 1, "Wished by someone", [7], [], []⟩

def msgUser : Message := ⟨103, 3, "yo", [], [], []⟩

def msgBot3 : Message := ⟨104, 1, "a", [], [], []⟩

def msgBot4 : Message := ⟨105, 1, "b", [], [], []⟩

def msgBot5 : Message := ⟨106, 1, "c", [], [], []⟩

def msgUser2 : Message := ⟨107, 4, "zz", [], [], []⟩

def logC9a : List Message := [msgAnchor, msgBot1, msgWish, msgUser]

def logC9b : List Message := [msgAnchor, msgBot1, msgBot3, msgBot4, msgBot5, msgUser2]

/-- C9 counterexample: two parts of the claim fail on the code. First, in
`logC9a` the bot-authored message `msgWish` contains the wish marker and
mentions member 7, but because it is not the message immediately after the
anchor the scan skips it without capturing suitors (`suitors` stays empty
while `creator` is still attributed). Second, in `logC9b` (6 ≤ 10 messages)
the first non-bot message is the 5th after the anchor; the scan breaks at
state 5 without examining its author, so `creator` is left absent even though
a non-bot author is present within the 10 examined messages. -/
theorem claim_C9_counterexample :
    (fetch_extra waifuC9 logC9a).suitors = [] ∧
    (fetch_extra waifuC9 logC9a).creator = some 3 ∧
    msgWish.author = waifuC9.mudae ∧ hasWished msgWish.content = true ∧
    msgWish.mentions = [7] ∧
    (fetch_extra waifuC9 logC9b).creator = none ∧
    msgUser2.author ≠ waifuC9.mudae ∧ msgUser2 ∈ logC9b ∧ logC9b.length ≤ 10 :=
  ⟨rfl, rfl, rfl, rfl, rfl, rfl, by decide, by decide, by decide⟩

/-- C9 amended: the scan examines at most the first 10 messages; once the
anchor is found, only the next four messages are author-checked: the first of
them not authored by the bot ends the scan with `creator` set to its author;
only the message immediately after the anchor, when bot-authored and
containing the wish marker, captures `suitors` (later bot messages are skipped
without the wish check); the fifth message after the anchor ends the scan
unconditionally, and an exhausted log leaves the record unchanged, `creator`
absent. This is the full transition table of the scan. -/
theorem claim_C9_amended :
    (∀ (w : Waifu) (hist : List Message), fetch_extra w hist = fetch_extra w (hist.take 10)) ∧
    (∀ (w : Waifu) (a : Message) (ms : List Message), a.id = w.messageId →
      fetch_extra w (a :: ms) = fetchLoop 1 w (ms.take 9)) ∧
    (∀ (w : Waifu) (a : Message) (ms : List Message), a.author ≠ w.mudae →
      fetchLoop 1 w (a :: ms) = { w with creator := some a.author }) ∧
    (∀ (w : Waifu) (a : Message) (ms : List Message), a.author = w.mudae →
      hasWished a.content = true →
      fetchLoop 1 w (a :: ms) = fetchLoop 2 { w with suitors := a.mentions } ms) ∧
    (∀ (w : Waifu) (a : Message) (ms : List Message), a.author = w.mudae →
      hasWished a.content = false →
      fetchLoop 1 w (a :: ms) = fetchLoop 2 w ms) ∧
    (∀ (w : Waifu) (s : Nat) (a : Message) (ms : List Message), s = 2 ∨ s = 3 ∨ s = 4 →
      a.author ≠ w.mudae → fetchLoop s w (a :: ms) = { w with creator := some a.author }) ∧
    (∀ (w : Waifu) (s : Nat) (a : Message) (ms : List Message), s = 2 ∨ s = 3 ∨ s = 4 →
      a.author = w.mudae → fetchLoop s w (a :: ms) = fetchLoop (s + 1) w ms) ∧
    (∀ (w : Waifu) (a : Message) (ms : List Message), fetchLoop 5 w (a :: ms) = w) ∧
    (∀ (w : Waifu) (s : Nat), fetchLoop s w [] = w) := by
  refine ⟨?_, ?_, ?_, ?_, ?_, ?_, ?_, ?_, ?_⟩
  · intro w hist
    simp [fetch_extra, List.take_take]
  · intro w a ms h
    simp [fetch_extra, fetchLoop, h]
  · intro w a ms h
    simp [fetchLoop, h]
  · intro w a ms h hw
    simp [fetchLoop, h, hw]
  · intro w a ms h hw
    simp [fetchLoop, h, hw]
  · intro w s a ms hs h
    rcases hs with rfl | rfl | rfl <;> simp [fetchLoop, h]
  · intro w s a ms hs h
    rcases hs with rfl | rfl | rfl <;> simp [fetchLoop, h]
  · intro w a ms
    rfl
  · intro w s
    simp [fetchLoop]

/-- C9 witness: the creator-attribution step of the amended transition table
applied at a concrete non-bot message. -/
theorem claim_C9_witness :
    fetchLoop 1 waifuC9 [msgUser] = { waifuC9 with creator := some msgUser.author } :=
  claim_C9_amended.2.2.1 waifuC9 msgUser [] (by decide)

end EzMudae
